import Mathlib

/-!
Verification development for the homework-status polling bot
(`src/homework.py`).  The Python module is shallowly embedded: dictionaries,
lists, strings, integers, booleans and `None` become the inductive type `Py`;
Python truthiness becomes `truthy`; exceptions become the `PyExc` type and
fallible functions return `Except PyExc _`.  The network transport and the
Telegram send call are oracles supplied as explicit inputs, so one iteration
of the `while True` loop in `main` becomes the pure function `runCycle`,
which also records the observable events (send attempts and sleeps) of the
iteration.
-/

namespace HomeworkBot

/-- Single-quote character, kept out of string literals. -/
def sq : String := String.singleton (Char.ofNat 39)

/-- Left curly brace character, kept out of string literals. -/
def lb : String := String.singleton (Char.ofNat 123)

/-- Right curly brace character, kept out of string literals. -/
def rb : String := String.singleton (Char.ofNat 125)

/-- Shallow embedding of the Python values the script manipulates. -/
inductive Py where
  | pyNone : Py
  | pyBool : Bool → Py
  | pyInt : Int → Py
  | pyStr : String → Py
  | pyList : List Py → Py
  | pyDict : List (String × Py) → Py

/-- Python truthiness (`bool(x)`): `None`, `False`, `0`, the empty string and
empty containers are falsy, everything else is truthy. -/
def truthy : Py → Bool
  | .pyNone => false
  | .pyBool b => b
  | .pyInt n => !(n == 0)
  | .pyStr s => !(s == "")
  | .pyList xs => !xs.isEmpty
  | .pyDict kvs => !kvs.isEmpty

/-- Python `dict.get(key)`: the value of the first matching key, else `None`.
Only applied to values already known to be dictionaries. -/
def Py.get : Py → String → Py
  | .pyDict kvs, k => (((kvs.find? (fun kv => kv.1 == k))).map Prod.snd).getD .pyNone
  | _, _ => .pyNone

/-- Python `f-string` rendering of `type(x)`: the angle-bracket class form,
with the type name in single quotes. -/
def pyTypeName : Py → String
  | .pyNone => "<class " ++ sq ++ "NoneType" ++ sq ++ ">"
  | .pyBool _ => "<class " ++ sq ++ "bool" ++ sq ++ ">"
  | .pyInt _ => "<class " ++ sq ++ "int" ++ sq ++ ">"
  | .pyStr _ => "<class " ++ sq ++ "str" ++ sq ++ ">"
  | .pyList _ => "<class " ++ sq ++ "list" ++ sq ++ ">"
  | .pyDict _ => "<class " ++ sq ++ "dict" ++ sq ++ ">"

/-- Short Python type name as used in `AttributeError` messages. -/
def pyShortName : Py → String
  | .pyNone => "NoneType"
  | .pyBool _ => "bool"
  | .pyInt _ => "int"
  | .pyStr _ => "str"
  | .pyList _ => "list"
  | .pyDict _ => "dict"

mutual

/-- Python `repr` of a value (string escaping inside reprs is not modelled). -/
def pyRepr : Py → String
  | .pyNone => "None"
  | .pyBool true => "True"
  | .pyBool false => "False"
  | .pyInt n => toString n
  | .pyStr s => sq ++ s ++ sq
  | .pyList xs => "[" ++ pyReprList xs ++ "]"
  | .pyDict kvs => lb ++ pyReprDict kvs ++ rb

/-- Comma-separated reprs of list elements. -/
def pyReprList : List Py → String
  | [] => ""
  | [x] => pyRepr x
  | x :: xs => pyRepr x ++ ", " ++ pyReprList xs

/-- Comma-separated reprs of dictionary items. -/
def pyReprDict : List (String × Py) → String
  | [] => ""
  | [(k, v)] => sq ++ k ++ sq ++ ": " ++ pyRepr v
  | (k, v) :: kvs => sq ++ k ++ sq ++ ": " ++ pyRepr v ++ ", " ++ pyReprDict kvs

end

/-- Python `str(x)` as used by f-string interpolation. -/
def pyToStr : Py → String
  | .pyStr s => s
  | p => pyRepr p

/-- Modelled from the spec: the script imports `ApiAnswerError`,
`TelegramSendMessageError` and `StatusError` from an `exceptions` module that
is not among the sources.  The spec lists the corresponding error kinds
(`ApiUnavailable`, `NotifyError`, `UnknownStatus`) as distinct from each other
and from the built-in kinds, so the three classes are modelled as plain,
unrelated exception constructors carrying their message, alongside the
built-in exception classes the script raises. -/
inductive PyExc where
  | apiAnswerError : String → PyExc
  | valueError : String → PyExc
  | typeError : String → PyExc
  | keyError : String → PyExc
  | statusError : String → PyExc
  | telegramSendMessageError : String → PyExc
  | attributeError : String → PyExc
deriving DecidableEq, Repr

/-- Python `str(exc)`; for `KeyError` this is the `repr` of the key, hence the
surrounding quotes. -/
def excMessage : PyExc → String
  | .apiAnswerError m => m
  | .valueError m => m
  | .typeError m => m
  | .keyError m => sq ++ m ++ sq
  | .statusError m => m
  | .telegramSendMessageError m => m
  | .attributeError m => m

/-- The three environment-derived secrets (`os.getenv` results). -/
structure Config where
  practicumToken : Option String
  telegramToken : Option String
  telegramChatId : Option String
deriving DecidableEq, Repr

/-- Truthiness of an `os.getenv` result: missing and empty are both falsy. -/
def envTruthy : Option String → Bool
  | none => false
  | some s => !(s == "")

/-- Embedding of `check_tokens`: `all([PRACTICUM_TOKEN, TELEGRAM_TOKEN, TELEGRAM_CHAT_ID])`. -/
def check_tokens (cfg : Config) : Bool :=
  envTruthy cfg.practicumToken && envTruthy cfg.telegramToken &&
    envTruthy cfg.telegramChatId

/-- The module-level `os.getenv` calls binding the three secrets. -/
def configFromEnv (env : String → Option String) : Config :=
  { practicumToken := env "PRACTICUM_TOKEN"
    telegramToken := env "TELEGRAM_TOKEN"
    telegramChatId := env "TELEGRAM_CHAT_ID" }

/-- Embedding of `RETRY_TIME = 600`. -/
def RETRY_TIME : Nat := 600

/-- Embedding of the `ENDPOINT` constant. -/
def ENDPOINT : String :=
  "https://practicum.yandex.ru/api/user_api/homework_statuses/"

/-- F-string rendering of an `os.getenv` result (`None` when missing). -/
def optTokenStr : Option String → String
  | none => "None"
  | some s => s

/-- Python `str(HEADERS)` for `HEADERS = ... OAuth <PRACTICUM_TOKEN> ...`. -/
def headersRepr (cfg : Config) : String :=
  lb ++ sq ++ "Authorization" ++ sq ++ ": " ++ sq ++ "OAuth " ++
    optTokenStr cfg.practicumToken ++ sq ++ rb

/-- Embedding of the `HOMEWORK_STATUSES` verdict table, in source order. -/
def HOMEWORK_STATUSES : List (String × String) :=
  [("approved", "Работа проверена: ревьюеру всё понравилось. Ура!"),
   ("reviewing", "Работа взята на проверку ревьюером."),
   ("rejected", "Работа проверена: у ревьюера есть замечания.")]

/-- Embedding of `HOMEWORK_STATUSES.get(key)`: a string key is looked up (absent gives
`None`); hashable non-string keys give `None`; unhashable keys (lists,
dictionaries) raise `TypeError` as in Python. -/
def homeworkStatusesGet : Py → Except PyExc Py
  | .pyStr s =>
      .ok ((((HOMEWORK_STATUSES.find? (fun kv => kv.1 == s))).map
        (fun kv => Py.pyStr kv.2)).getD .pyNone)
  | .pyList _ => .error (.typeError ("unhashable type: " ++ sq ++ "list" ++ sq))
  | .pyDict _ => .error (.typeError ("unhashable type: " ++ sq ++ "dict" ++ sq))
  | _ => .ok .pyNone

/-- Embedding of `send_message(bot, message)`: the Telegram transport is an oracle mapping
the message text to `none` (delivered) or `some err` (a `TelegramError` with
text `err`), in which case `TelegramSendMessageError` is raised. -/
def send_message (oracle : String → Option String) (message : String) :
    Except PyExc Unit :=
  match oracle message with
  | none => .ok ()
  | some err =>
      .error (.telegramSendMessageError ("Ошибка при отправке сообщения " ++ err))

/-- One HTTP exchange: either the transport raises `RequestException` with
text `err`, or a response arrives with a status code and a body whose JSON
decoding either succeeds with a `Py` value or fails with a decode error. -/
inductive TransportResult where
  | exn : String → TransportResult
  | resp : Nat → Except String Py → TransportResult

/-- Embedding of `get_api_answer(current_timestamp)` over an explicit transport outcome. -/
def get_api_answer (cfg : Config) (transport : TransportResult) :
    Except PyExc Py :=
  match transport with
  | .exn err =>
      .error (.apiAnswerError
        ("Эндпоинт " ++ ENDPOINT ++ " недоступен. Ошибка: " ++ err))
  | .resp code body =>
      if code ≠ 200 then
        .error (.apiAnswerError
          ("Эндпоинт " ++ ENDPOINT ++ " недоступен. Код ответа API: " ++
            toString code ++ " headers: " ++ headersRepr cfg))
      else
        match body with
        | .ok j => .ok j
        | .error err =>
            .error (.valueError
              ("Ошибка при декодирование json. Ошибка: " ++ err))

/-- Embedding of `check_response(response)`. -/
def check_response (response : Py) : Except PyExc (List Py) :=
  match response with
  | .pyDict _ =>
      match response.get "homeworks" with
      | .pyList hws =>
          let current_date := response.get "current_date"
          if truthy (Py.pyList hws) &&
              (!truthy (Py.pyList hws) || !truthy current_date) then
            .error (.keyError "Отсутствуют ключи от API")
          else
            .ok hws
      | _ =>
          .error (.typeError
            ("Нверный тип данных ДЗ: " ++ pyTypeName response ++ " != list"))
  | _ =>
      .error (.typeError
        ("Нверный тип данных ответа: " ++ pyTypeName response ++ " != dict"))

/-- Embedding of `parse_status(homework)`.  Calling `.get` on a non-dictionary raises
`AttributeError` as in Python. -/
def parse_status (homework : Py) : Except PyExc String :=
  match homework with
  | .pyDict _ =>
      let homework_name := homework.get "homework_name"
      let homework_status := homework.get "status"
      if !truthy homework_name || !truthy homework_status then
        .error (.keyError "Отсутствуют ключи от последней работы")
      else
        match homeworkStatusesGet homework_status with
        | .error e => .error e
        | .ok verdict =>
            if !truthy verdict then
              .error (.statusError
                ("Недокументированный статус домашней работы " ++
                  pyToStr homework_status))
            else
              .ok ("Изменился статус проверки работы \"" ++
                pyToStr homework_name ++ "\". " ++ pyToStr verdict)
  | _ =>
      .error (.attributeError
        (sq ++ pyShortName homework ++ sq ++ " object has no attribute " ++
          sq ++ "get" ++ sq))

/-- The two loop-local variables of `main`. -/
structure BotState where
  prev_message : Option String
  current_timestamp : Int
deriving DecidableEq, Repr

/-- Observable events of one loop iteration. -/
inductive Event where
  | send : String → Event
  | sleep : Nat → Event
deriving DecidableEq, Repr

/-- Result of one loop iteration: the new loop state, the events in order,
and whether an uncaught exception escaped the iteration (which terminates
the process). -/
structure CycleResult where
  state : BotState
  events : List Event
  crashed : Bool
deriving DecidableEq, Repr

/-- The error-message header used in `main`: `Сбой в работе программы: `. -/
def errHeader : String := "Сбой в работе программы: "

/-- The `try:` block of one iteration of `main`.  `Sum.inl` is normal
completion with the updated state and the send attempts made on the way;
`Sum.inr` is an exception carrying the send attempts made before it was
raised. -/
def tryStage (cfg : Config) (transport : TransportResult)
    (oracle : String → Option String) (now : Int) (s : BotState) :
    (BotState × List Event) ⊕ (PyExc × List Event) :=
  match get_api_answer cfg transport with
  | .error e => .inr (e, [])
  | .ok response =>
      match check_response response with
      | .error e => .inr (e, [])
      | .ok [] => .inl ({ s with current_timestamp := now }, [])
      | .ok (hw :: _) =>
          match parse_status hw with
          | .error e => .inr (e, [])
          | .ok status =>
              if some status = s.prev_message then
                .inl ({ s with current_timestamp := now }, [])
              else
                match send_message oracle status with
                | .ok _ =>
                    .inl ({ prev_message := some status,
                            current_timestamp := now }, [.send status])
                | .error e => .inr (e, [.send status])

/-- One full iteration of the `while True:` loop in `main`: the `try:` block,
the `except Exception` handler (which builds the error message, applies the
same de-duplication comparison and re-attempts `send_message`; a failure of
that send is uncaught), and the `finally: time.sleep(RETRY_TIME)`. -/
def runCycle (cfg : Config) (transport : TransportResult)
    (oracle : String → Option String) (now : Int) (s : BotState) :
    CycleResult :=
  match tryStage cfg transport oracle now s with
  | .inl (s2, evs) =>
      { state := s2, events := evs ++ [.sleep RETRY_TIME], crashed := false }
  | .inr (e, evs) =>
      let message := errHeader ++ excMessage e
      if some message = s.prev_message then
        { state := s, events := evs ++ [.sleep RETRY_TIME], crashed := false }
      else
        match send_message oracle message with
        | .ok _ =>
            { state := { s with prev_message := some message },
              events := evs ++ [.send message, .sleep RETRY_TIME],
              crashed := false }
        | .error _ =>
            { state := s,
              events := evs ++ [.send message, .sleep RETRY_TIME],
              crashed := true }

/-- The single message text a cycle routes through the de-duplication
comparison when the Telegram transport itself does not fail: the parsed
status message on the success path, the synthesized error message when
fetch, validation or parsing fails, and nothing when the homework list is
empty. -/
def cycleText (cfg : Config) (transport : TransportResult) : Option String :=
  match get_api_answer cfg transport with
  | .error e => some (errHeader ++ excMessage e)
  | .ok response =>
      match check_response response with
      | .error e => some (errHeader ++ excMessage e)
      | .ok [] => none
      | .ok (hw :: _) =>
          match parse_status hw with
          | .error e => some (errHeader ++ excMessage e)
          | .ok status => some status

/-- Texts passed to `send_message` during a cycle, in order. -/
def sentTexts (evs : List Event) : List String :=
  evs.filterMap (fun e => match e with | .send t => some t | .sleep _ => none)

/-- Texts whose `send_message` call succeeded, in order. -/
def successfulTexts (oracle : String → Option String) (evs : List Event) :
    List String :=
  (sentTexts evs).filter (fun t => (oracle t).isNone)

/-- Embedding of `error_tokens_message()`. -/
def error_tokens_message (cfg : Config) : String :=
  let m0 := "Отсутствуют обязательные переменные окружения: "
  let m1 := if envTruthy cfg.practicumToken then m0 else m0 ++ "PRACTICUM_TOKEN, "
  let m2 := if envTruthy cfg.telegramToken then m1 else m1 ++ "TELEGRAM_TOKEN, "
  let m3 := if envTruthy cfg.telegramChatId then m2 else m2 ++ "TELEGRAM_CHAT_ID, "
  m3 ++ "программа принудительно остановлена!"

/-- The startup section of `main` (before the loop): when `check_tokens`
fails the process logs and exits (`Except.error` carries the critical
message); otherwise the loop is entered with `prev_message = None` and
`current_timestamp = int(time.time())`. -/
def mainStartup (cfg : Config) (now : Int) : Except String BotState :=
  if check_tokens cfg then
    .ok { prev_message := none, current_timestamp := now }
  else
    .error (error_tokens_message cfg)

/-- A homework record with string-valued `homework_name` and `status`, the
shape prescribed by the data model of the spec. -/
def mkRecord (name status : String) : Py :=
  .pyDict [("homework_name", .pyStr name), ("status", .pyStr status)]

/-- A concrete configuration with all three secrets present. -/
def cfg0 : Config := ⟨some "p", some "t", some "c"⟩

/-- The status message for homework `HW1` with status `approved`. -/
def statusMsg1 : String :=
  "Изменился статус проверки работы \"HW1\". Работа проверена: ревьюеру всё понравилось. Ура!"

/-- A transport outcome delivering one approved homework `HW1`. -/
def transport1 : TransportResult :=
  .resp 200 (.ok (.pyDict [("homeworks", .pyList [mkRecord "HW1" "approved"]),
    ("current_date", .pyInt 1000)]))

/-- Verdict lookup on a string status, resolved to explicit cases. -/
lemma homeworkStatusesGet_str (s : String) :
    homeworkStatusesGet (.pyStr s) =
      .ok (if s = "approved" then
             .pyStr "Работа проверена: ревьюеру всё понравилось. Ура!"
           else if s = "reviewing" then
             .pyStr "Работа взята на проверку ревьюером."
           else if s = "rejected" then
             .pyStr "Работа проверена: у ревьюера есть замечания."
           else .pyNone) := by
  by_cases h1 : s = "approved"
  · subst h1; rfl
  · by_cases h2 : s = "reviewing"
    · subst h2; rfl
    · by_cases h3 : s = "rejected"
      · subst h3; rfl
      · have e1 : (("approved" : String) == s) = false :=
          beq_eq_false_iff_ne.mpr (fun h => h1 h.symm)
        have e2 : (("reviewing" : String) == s) = false :=
          beq_eq_false_iff_ne.mpr (fun h => h2 h.symm)
        have e3 : (("rejected" : String) == s) = false :=
          beq_eq_false_iff_ne.mpr (fun h => h3 h.symm)
        simp [homeworkStatusesGet, HOMEWORK_STATUSES, List.find?, e1, e2, e3,
          h1, h2, h3]

/-- Truthiness of an embedded list value. -/
lemma truthy_pyList (xs : List Py) : truthy (.pyList xs) = !xs.isEmpty := rfl

/-- Truthiness of an embedded string value. -/
lemma truthy_pyStr (s : String) : truthy (.pyStr s) = !(s == "") := rfl

/-- Exhaustive normal forms of the `try:` block of one cycle. -/
lemma tryStage_cases (cfg : Config) (t : TransportResult)
    (oracle : String → Option String) (now : Int) (s : BotState) :
    (tryStage cfg t oracle now s =
        .inl ({ s with current_timestamp := now }, [])) ∨
    (∃ a, tryStage cfg t oracle now s =
        .inl ({ prev_message := some a, current_timestamp := now }, [.send a]) ∧
        some a ≠ s.prev_message ∧ oracle a = none) ∨
    (∃ e, tryStage cfg t oracle now s = .inr (e, [])) ∨
    (∃ a er, tryStage cfg t oracle now s =
        .inr (.telegramSendMessageError ("Ошибка при отправке сообщения " ++ er),
          [.send a]) ∧
        some a ≠ s.prev_message ∧ oracle a = some er) := by
  cases hga : get_api_answer cfg t with
  | error e =>
      refine Or.inr (Or.inr (Or.inl ⟨e, ?_⟩))
      simp only [tryStage, hga]
  | ok response =>
    cases hcr : check_response response with
    | error e =>
        refine Or.inr (Or.inr (Or.inl ⟨e, ?_⟩))
        simp only [tryStage, hga, hcr]
    | ok hws =>
      cases hws with
      | nil =>
          refine Or.inl ?_
          simp only [tryStage, hga, hcr]
      | cons hw rest =>
        cases hps : parse_status hw with
        | error e =>
            refine Or.inr (Or.inr (Or.inl ⟨e, ?_⟩))
            simp only [tryStage, hga, hcr, hps]
        | ok status =>
          by_cases hdup : some status = s.prev_message
          · refine Or.inl ?_
            simp only [tryStage, hga, hcr, hps, if_pos hdup]
          · cases hor : oracle status with
            | none =>
                refine Or.inr (Or.inl ⟨status, ?_, hdup, hor⟩)
                simp only [tryStage, hga, hcr, hps, if_neg hdup,
                  send_message, hor]
            | some er =>
                refine Or.inr (Or.inr (Or.inr ⟨status, er, ?_, hdup, hor⟩))
                simp only [tryStage, hga, hcr, hps, if_neg hdup,
                  send_message, hor]

/-- Normal completion of the `try:` block makes the cycle append the sleep
and report no crash. -/
lemma runCycle_inl (cfg : Config) (t : TransportResult)
    (oracle : String → Option String) (now : Int) (s : BotState)
    (s2 : BotState) (evs : List Event)
    (h : tryStage cfg t oracle now s = .inl (s2, evs)) :
    runCycle cfg t oracle now s =
      ⟨s2, evs ++ [.sleep RETRY_TIME], false⟩ := by
  unfold runCycle
  rw [h]

/-- An exception in the `try:` block routes its message through the
de-duplication comparison; a failing send of that message is uncaught. -/
lemma runCycle_inr (cfg : Config) (t : TransportResult)
    (oracle : String → Option String) (now : Int) (s : BotState)
    (e : PyExc) (evs : List Event)
    (h : tryStage cfg t oracle now s = .inr (e, evs)) :
    (some (errHeader ++ excMessage e) = s.prev_message →
      runCycle cfg t oracle now s = ⟨s, evs ++ [.sleep RETRY_TIME], false⟩) ∧
    (some (errHeader ++ excMessage e) ≠ s.prev_message →
      oracle (errHeader ++ excMessage e) = none →
      runCycle cfg t oracle now s =
        ⟨{ s with prev_message := some (errHeader ++ excMessage e) },
          evs ++ [.send (errHeader ++ excMessage e), .sleep RETRY_TIME],
          false⟩) ∧
    (some (errHeader ++ excMessage e) ≠ s.prev_message →
      ∀ er, oracle (errHeader ++ excMessage e) = some er →
      runCycle cfg t oracle now s =
        ⟨s, evs ++ [.send (errHeader ++ excMessage e), .sleep RETRY_TIME],
          true⟩) := by
  refine ⟨?_, ?_, ?_⟩
  · intro hdup
    simp only [runCycle, h]
    rw [if_pos hdup]
  · intro hdup hor
    simp only [runCycle, h]
    rw [if_neg hdup]
    simp [send_message, hor]
  · intro hdup er hor
    simp only [runCycle, h]
    rw [if_neg hdup]
    simp [send_message, hor]

/-- The cycle failed in `get_api_answer`, `check_response` or `parse_status`
(the fetch, validate and describe stages), raising exception `e` before any
send was attempted. -/
def earlyFailure (cfg : Config) (t : TransportResult) (e : PyExc) : Prop :=
  get_api_answer cfg t = .error e ∨
  (∃ resp, get_api_answer cfg t = .ok resp ∧ check_response resp = .error e) ∨
  (∃ resp hw rest, get_api_answer cfg t = .ok resp ∧
    check_response resp = .ok (hw :: rest) ∧ parse_status hw = .error e)

/-- A fetch, validate or describe failure is exactly a `try:` block outcome
with exception `e` and no send attempts. -/
lemma earlyFailure_tryStage (cfg : Config) (t : TransportResult)
    (oracle : String → Option String) (now : Int) (s : BotState) (e : PyExc)
    (h : earlyFailure cfg t e) :
    tryStage cfg t oracle now s = .inr (e, []) := by
  rcases h with h | ⟨resp, h1, h2⟩ | ⟨resp, hw, rest, h1, h2, h3⟩
  · simp only [tryStage, h]
  · simp only [tryStage, h1, h2]
  · simp only [tryStage, h1, h2, h3]

/-- With a transport that delivers every message, a cycle whose computed
text is `txt` ends with `prev_message = txt`, and sends `txt` exactly when
it differs from the stored previous message. -/
lemma runCycle_allOk (cfg : Config) (t : TransportResult) (now : Int)
    (s : BotState) (txt : String) (h : cycleText cfg t = some txt) :
    (runCycle cfg t (fun _ => none) now s).state.prev_message = some txt ∧
    (runCycle cfg t (fun _ => none) now s).events =
      (if some txt = s.prev_message then [] else [.send txt]) ++
        [.sleep RETRY_TIME] := by
  cases hga : get_api_answer cfg t with
  | error e =>
      have htxt : txt = errHeader ++ excMessage e := by
        simp only [cycleText, hga, Option.some.injEq] at h
        exact h.symm
      subst htxt
      have htry : tryStage cfg t (fun _ => none) now s = .inr (e, []) := by
        simp only [tryStage, hga]
      have hrc := runCycle_inr cfg t (fun _ => none) now s e [] htry
      by_cases hd : some (errHeader ++ excMessage e) = s.prev_message
      · rw [hrc.1 hd]
        simp [hd]
      · rw [hrc.2.1 hd rfl]
        simp [hd]
  | ok resp =>
    cases hcr : check_response resp with
    | error e =>
        have htxt : txt = errHeader ++ excMessage e := by
          simp only [cycleText, hga, hcr, Option.some.injEq] at h
          exact h.symm
        subst htxt
        have htry : tryStage cfg t (fun _ => none) now s = .inr (e, []) := by
          simp only [tryStage, hga, hcr]
        have hrc := runCycle_inr cfg t (fun _ => none) now s e [] htry
        by_cases hd : some (errHeader ++ excMessage e) = s.prev_message
        · rw [hrc.1 hd]
          simp [hd]
        · rw [hrc.2.1 hd rfl]
          simp [hd]
    | ok hws =>
      cases hws with
      | nil =>
          simp only [cycleText, hga, hcr] at h
          exact Option.noConfusion h
      | cons hw rest =>
        cases hps : parse_status hw with
        | error e =>
            have htxt : txt = errHeader ++ excMessage e := by
              simp only [cycleText, hga, hcr, hps, Option.some.injEq] at h
              exact h.symm
            subst htxt
            have htry : tryStage cfg t (fun _ => none) now s = .inr (e, []) := by
              simp only [tryStage, hga, hcr, hps]
            have hrc := runCycle_inr cfg t (fun _ => none) now s e [] htry
            by_cases hd : some (errHeader ++ excMessage e) = s.prev_message
            · rw [hrc.1 hd]
              simp [hd]
            · rw [hrc.2.1 hd rfl]
              simp [hd]
        | ok status =>
            have htxt : txt = status := by
              simp only [cycleText, hga, hcr, hps, Option.some.injEq] at h
              exact h.symm
            subst htxt
            by_cases hd : some txt = s.prev_message
            · have htry : tryStage cfg t (fun _ => none) now s =
                  .inl ({ s with current_timestamp := now }, []) := by
                simp only [tryStage, hga, hcr, hps, if_pos hd]
              rw [runCycle_inl cfg t (fun _ => none) now s _ _ htry]
              simp [hd]
            · have htry : tryStage cfg t (fun _ => none) now s =
                  .inl ({ prev_message := some txt, current_timestamp := now },
                    [.send txt]) := by
                simp only [tryStage, hga, hcr, hps, if_neg hd, send_message]
              rw [runCycle_inl cfg t (fun _ => none) now s _ _ htry]
              simp [hd]

/-- Claim C9: if any of the three required environment variables is set to
the empty string, `check_tokens` returns `False`, the process exits before
entering the polling loop, and the configuration check gives the same answer
as if the variable were absent. -/
theorem check_tokens_empty_var (env : String → Option String) (name : String)
    (now : Int)
    (hmem : name = "PRACTICUM_TOKEN" ∨ name = "TELEGRAM_TOKEN" ∨
      name = "TELEGRAM_CHAT_ID")
    (hempty : env name = some "") :
    check_tokens (configFromEnv env) = false ∧
    (mainStartup (configFromEnv env) now).isOk = false ∧
    check_tokens (configFromEnv env) =
      check_tokens (configFromEnv (fun k => if k = name then none else env k)) := by
  rcases hmem with h | h | h <;> subst h <;>
    simp [check_tokens, configFromEnv, envTruthy, hempty, mainStartup,
      Except.isOk, Except.toBool]

/-- Witness for C9 at a concrete environment with `TELEGRAM_TOKEN` empty. -/
theorem check_tokens_empty_var_witness :
    check_tokens (configFromEnv
        (fun k => if k = "TELEGRAM_TOKEN" then some "" else some "x")) = false ∧
    (mainStartup (configFromEnv
        (fun k => if k = "TELEGRAM_TOKEN" then some "" else some "x")) 0).isOk = false ∧
    check_tokens (configFromEnv
        (fun k => if k = "TELEGRAM_TOKEN" then some "" else some "x")) =
      check_tokens (configFromEnv (fun k => if k = "TELEGRAM_TOKEN" then none
        else if k = "TELEGRAM_TOKEN" then some "" else some "x")) :=
  check_tokens_empty_var (fun k => if k = "TELEGRAM_TOKEN" then some "" else some "x")
    "TELEGRAM_TOKEN" 0 (Or.inr (Or.inl rfl)) (by simp)

/-- Claim C10: a record whose `homework_name` or `status` is present but
equal to the empty string makes `parse_status` raise the missing-field
`KeyError` (not the unknown-status error): the check is on truthiness and
runs before the verdict lookup. -/
theorem parse_status_empty_field (kvs : List (String × Py))
    (h : (Py.pyDict kvs).get "homework_name" = .pyStr "" ∨
      (Py.pyDict kvs).get "status" = .pyStr "") :
    parse_status (.pyDict kvs) =
      .error (.keyError "Отсутствуют ключи от последней работы") := by
  rcases h with h | h <;> simp [parse_status, h, truthy]

/-- Witness for C10 at a concrete record with an empty `homework_name`. -/
theorem parse_status_empty_field_witness :
    parse_status (.pyDict [("homework_name", Py.pyStr ""),
        ("status", Py.pyStr "approved")]) =
      .error (.keyError "Отсутствуют ключи от последней работы") :=
  parse_status_empty_field
    [("homework_name", Py.pyStr ""), ("status", Py.pyStr "approved")]
    (Or.inl rfl)

/-- Claim C6: a transport exception or a non-200 status makes
`get_api_answer` raise `ApiAnswerError` (so no body, even partially parsed,
is returned), and a normal return happens only from a 200 response whose
body decoded successfully, returned whole. -/
theorem get_api_answer_failure_modes (cfg : Config) (t : TransportResult) :
    (((∃ e, t = .exn e) ∨ ∃ code body, t = .resp code body ∧ code ≠ 200) →
      ∃ m, get_api_answer cfg t = .error (.apiAnswerError m)) ∧
    ∀ j, get_api_answer cfg t = .ok j →
      ∃ body, t = .resp 200 body ∧ body = .ok j := by
  constructor
  · rintro (⟨e, rfl⟩ | ⟨code, body, rfl, hcode⟩)
    · exact ⟨_, rfl⟩
    · refine ⟨"Эндпоинт " ++ ENDPOINT ++ " недоступен. Код ответа API: " ++
        toString code ++ " headers: " ++ headersRepr cfg, ?_⟩
      simp [get_api_answer, hcode]
  · intro j hj
    cases t with
    | exn e => simp [get_api_answer] at hj
    | resp code body =>
        by_cases hc : code = 200
        · subst hc
          cases body with
          | ok v =>
              simp [get_api_answer] at hj
              exact ⟨.ok v, rfl, by rw [hj]⟩
          | error e => simp [get_api_answer] at hj
        · simp [get_api_answer, hc] at hj

/-- Witness for C6 at a concrete 404 response carrying a decodable body. -/
theorem get_api_answer_failure_modes_witness :
    ∃ m, get_api_answer cfg0 (.resp 404 (.ok .pyNone)) =
      .error (.apiAnswerError m) :=
  (get_api_answer_failure_modes cfg0 (.resp 404 (.ok .pyNone))).1
    (Or.inr ⟨404, .ok .pyNone, rfl, by decide⟩)

/-- Counterexample to claim C4 as stated: a response whose `homeworks` is a
non-empty list and whose `current_date` key is present (with the falsy value
`0`) is rejected by `check_response`, although the claim requires the
homeworks sequence to be returned unchanged whenever `current_date` is not
absent. -/
theorem check_response_current_date_zero :
    check_response (.pyDict [("homeworks", .pyList [.pyDict []]),
        ("current_date", .pyInt 0)]) =
      .error (.keyError "Отсутствуют ключи от API") ∧
    (Py.pyDict [("homeworks", .pyList [.pyDict []]),
        ("current_date", .pyInt 0)]).get "current_date" = .pyInt 0 :=
  ⟨rfl, rfl⟩

/-- Claim C4 as amended: `check_response` raises `TypeError` when the input
is not a dictionary or `homeworks` is missing or not a list; when `homeworks`
is a non-empty list it raises `KeyError` when `current_date` is absent or
falsy (for example `0`); otherwise it returns the homeworks list unchanged,
the empty list included. -/
theorem check_response_characterization (r : Py) :
    check_response r =
      match r with
      | .pyDict _ =>
          match r.get "homeworks" with
          | .pyList hws =>
              if !hws.isEmpty && !truthy (r.get "current_date") then
                .error (.keyError "Отсутствуют ключи от API")
              else .ok hws
          | _ =>
              .error (.typeError
                ("Нверный тип данных ДЗ: " ++ pyTypeName r ++ " != list"))
      | _ =>
          .error (.typeError
            ("Нверный тип данных ответа: " ++ pyTypeName r ++ " != dict")) := by
  cases r with
  | pyNone => rfl
  | pyBool b => rfl
  | pyInt n => rfl
  | pyStr s => rfl
  | pyList xs => rfl
  | pyDict kvs =>
      cases hg : (Py.pyDict kvs).get "homeworks" with
      | pyNone => simp only [check_response, hg]
      | pyBool b => simp only [check_response, hg]
      | pyInt n => simp only [check_response, hg]
      | pyStr s2 => simp only [check_response, hg]
      | pyDict kvs2 => simp only [check_response, hg]
      | pyList hws =>
          cases hws with
          | nil => simp [check_response, hg, truthy_pyList]
          | cons hw tl =>
              cases htc : truthy ((Py.pyDict kvs).get "current_date") <;>
                simp [check_response, hg, truthy_pyList, htc]

/-- Counterexample to claim C3 as stated: a record whose `status` is present
but empty (a value outside the three recognized enum values) fails with the
missing-field `KeyError`, not with the unknown-status error the claim
requires for a status outside the enum. -/
theorem parse_status_empty_status :
    parse_status (mkRecord "HW1" "") =
      .error (.keyError "Отсутствуют ключи от последней работы") ∧
    ¬ ("" ∈ ["approved", "reviewing", "rejected"]) :=
  ⟨rfl, by decide⟩

/-- Claim C3 as amended: on a record with string fields, `parse_status`
raises the missing-field `KeyError` when `homework_name` or `status` is
absent or empty; for a non-empty status outside `approved`, `reviewing`,
`rejected` it raises the unknown-status error; otherwise it returns the
templated sentence naming the homework and the fixed verdict. -/
theorem parse_status_characterization (name status : String) :
    parse_status (mkRecord name status) =
      if name = "" ∨ status = "" then
        .error (.keyError "Отсутствуют ключи от последней работы")
      else if status = "approved" then
        .ok ("Изменился статус проверки работы \"" ++ name ++ "\". " ++
          "Работа проверена: ревьюеру всё понравилось. Ура!")
      else if status = "reviewing" then
        .ok ("Изменился статус проверки работы \"" ++ name ++ "\". " ++
          "Работа взята на проверку ревьюером.")
      else if status = "rejected" then
        .ok ("Изменился статус проверки работы \"" ++ name ++ "\". " ++
          "Работа проверена: у ревьюера есть замечания.")
      else
        .error (.statusError
          ("Недокументированный статус домашней работы " ++ status)) := by
  have hget1 : (Py.pyDict [("homework_name", Py.pyStr name),
      ("status", Py.pyStr status)]).get "homework_name" = .pyStr name := rfl
  have hget2 : (Py.pyDict [("homework_name", Py.pyStr name),
      ("status", Py.pyStr status)]).get "status" = .pyStr status := rfl
  simp only [mkRecord, parse_status, hget1, hget2, truthy_pyStr,
    homeworkStatusesGet_str, pyToStr, Bool.not_not]
  by_cases h1 : name = ""
  · simp [h1]
  · by_cases h2 : status = ""
    · simp [h1, h2]
    · by_cases h3 : status = "approved"
      · simp [h1, h2, h3, truthy, pyToStr]
      · by_cases h4 : status = "reviewing"
        · simp [h1, h2, h3, h4, truthy, pyToStr]
        · by_cases h5 : status = "rejected"
          · simp [h1, h2, h3, h4, h5, truthy, pyToStr]
          · simp [h1, h2, h3, h4, h5, truthy, pyToStr]

/-- Counterexample to claim C1 as stated: a cycle in which the fetch raises
a transport error and the chat endpoint is unreachable ends with an uncaught
exception (the `send_message` failure inside the `except` block), so a
cycle-level error can terminate the process. -/
theorem cycle_error_crash :
    (runCycle cfg0 (.exn "boom") (fun _ => some "netdown") 200
      ⟨none, 100⟩).crashed = true := rfl

/-- The exception raised by `get_api_answer` for a transport error `boom`. -/
def apiExn0 : PyExc :=
  .apiAnswerError ("Эндпоинт " ++ ENDPOINT ++ " недоступен. Ошибка: boom")

/-- Claim C1 as amended: when fetch, validation or parsing fails with `e`,
the synthesized error message is routed through the same notify-with-dedup
path (suppressed when equal to the stored previous message, sent otherwise);
however, if the `send_message` call made while reporting that error itself
fails, the failure is not caught: the cycle still sleeps but the exception
escapes and terminates the process. -/
theorem cycle_error_reporting (cfg : Config) (t : TransportResult)
    (oracle : String → Option String) (now : Int) (s : BotState) (e : PyExc)
    (h : earlyFailure cfg t e) :
    (some (errHeader ++ excMessage e) = s.prev_message →
      runCycle cfg t oracle now s = ⟨s, [.sleep RETRY_TIME], false⟩) ∧
    (some (errHeader ++ excMessage e) ≠ s.prev_message →
      oracle (errHeader ++ excMessage e) = none →
      runCycle cfg t oracle now s =
        ⟨{ s with prev_message := some (errHeader ++ excMessage e) },
          [.send (errHeader ++ excMessage e), .sleep RETRY_TIME], false⟩) ∧
    (some (errHeader ++ excMessage e) ≠ s.prev_message →
      ∀ er, oracle (errHeader ++ excMessage e) = some er →
      runCycle cfg t oracle now s =
        ⟨s, [.send (errHeader ++ excMessage e), .sleep RETRY_TIME], true⟩) := by
  have htry := earlyFailure_tryStage cfg t oracle now s e h
  have hrc := runCycle_inr cfg t oracle now s e [] htry
  refine ⟨fun hd => ?_, fun hd ho => ?_, fun hd er ho => ?_⟩
  · simpa using hrc.1 hd
  · simpa using hrc.2.1 hd ho
  · simpa using hrc.2.2 hd er ho

/-- Witness for C1 (amended) at a concrete fetch failure with an
unreachable chat endpoint: the error send is attempted and the cycle ends
crashed. -/
theorem cycle_error_reporting_witness :
    runCycle cfg0 (.exn "boom") (fun _ => some "netdown") 200 ⟨none, 100⟩ =
      ⟨⟨none, 100⟩, [.send (errHeader ++ excMessage apiExn0),
        .sleep RETRY_TIME], true⟩ :=
  (cycle_error_reporting cfg0 (.exn "boom") (fun _ => some "netdown") 200
    ⟨none, 100⟩ apiExn0 (Or.inl rfl)).2.2 (by decide) "netdown" rfl

/-- Claim C2: across two consecutive cycles whose computed message text is
the same `txt` (and whose sends are delivered), `send_message` is invoked
with `txt` at most once in total: the second cycle never re-sends a text
equal to the stored previous message. -/
theorem dedup_consecutive_cycles (cfg : Config) (t1 t2 : TransportResult)
    (now1 now2 : Int) (s : BotState) (txt : String)
    (h1 : cycleText cfg t1 = some txt) (h2 : cycleText cfg t2 = some txt) :
    ((runCycle cfg t1 (fun _ => none) now1 s).events ++
      (runCycle cfg t2 (fun _ => none) now2
        (runCycle cfg t1 (fun _ => none) now1 s).state).events).count
      (.send txt) ≤ 1 := by
  obtain ⟨hp1, he1⟩ := runCycle_allOk cfg t1 now1 s txt h1
  obtain ⟨hp2, he2⟩ := runCycle_allOk cfg t2 now2
    (runCycle cfg t1 (fun _ => none) now1 s).state txt h2
  rw [he1, he2, hp1]
  by_cases hd : some txt = s.prev_message <;>
    simp [hd, List.count_append, List.count_cons, List.count_nil]

/-- Witness for C2 at two consecutive successful cycles delivering the same
approved homework: the status message is sent once and then suppressed. -/
theorem dedup_consecutive_cycles_witness :
    ((runCycle cfg0 transport1 (fun _ => none) 7 ⟨none, 0⟩).events ++
      (runCycle cfg0 transport1 (fun _ => none) 8
        (runCycle cfg0 transport1 (fun _ => none) 7 ⟨none, 0⟩).state).events).count
      (.send statusMsg1) ≤ 1 :=
  dedup_consecutive_cycles cfg0 transport1 transport1 7 8 ⟨none, 0⟩
    statusMsg1 rfl rfl

/-- Claim C5: `current_timestamp` is set to `now` exactly when the `try:`
block (fetch, validate, describe, notify) completes without an exception;
any failure leaves it unchanged. -/
theorem timestamp_frame (cfg : Config) (t : TransportResult)
    (oracle : String → Option String) (now : Int) (s : BotState) :
    (runCycle cfg t oracle now s).state.current_timestamp =
      if (tryStage cfg t oracle now s).isLeft then now
      else s.current_timestamp := by
  rcases tryStage_cases cfg t oracle now s with h | ⟨a, h, hd, ho⟩ | ⟨e, h⟩ |
    ⟨a, er, h, hd, ho⟩
  · rw [runCycle_inl cfg t oracle now s _ _ h, h]
    rfl
  · rw [runCycle_inl cfg t oracle now s _ _ h, h]
    rfl
  · have hrc := runCycle_inr cfg t oracle now s e [] h
    rw [h]
    by_cases hd : some (errHeader ++ excMessage e) = s.prev_message
    · rw [hrc.1 hd]
      simp [Sum.isLeft]
    · cases ho : oracle (errHeader ++ excMessage e) with
      | none =>
          rw [hrc.2.1 hd ho]
          simp [Sum.isLeft]
      | some er =>
          rw [hrc.2.2 hd er ho]
          simp [Sum.isLeft]
  · have hrc := runCycle_inr cfg t oracle now s _ _ h
    rw [h]
    by_cases hd2 : some (errHeader ++ excMessage
        (.telegramSendMessageError ("Ошибка при отправке сообщения " ++ er))) =
        s.prev_message
    · rw [hrc.1 hd2]
      simp [Sum.isLeft]
    · cases ho2 : oracle (errHeader ++ excMessage
          (.telegramSendMessageError ("Ошибка при отправке сообщения " ++ er))) with
      | none =>
          rw [hrc.2.1 hd2 ho2]
          simp [Sum.isLeft]
      | some er2 =>
          rw [hrc.2.2 hd2 er2 ho2]
          simp [Sum.isLeft]

/-- Witness for C5: not needed as the theorem is unconditional, stated for
uniformity at a failing fetch. -/
theorem timestamp_frame_witness :
    (runCycle cfg0 (.exn "boom") (fun _ => none) 200 ⟨none, 100⟩).state.current_timestamp =
      if (tryStage cfg0 (.exn "boom") (fun _ => none) 200 ⟨none, 100⟩).isLeft
      then (200 : Int) else 100 :=
  timestamp_frame cfg0 (.exn "boom") (fun _ => none) 200 ⟨none, 100⟩

/-- A transport oracle that fails exactly on the `HW1` status message. -/
def oracle7 : String → Option String :=
  fun txt => if txt = statusMsg1 then some "X" else none

/-- The error message `main` synthesizes when sending the status fails with
Telegram error `X`. -/
def errMsg7 : String :=
  "Сбой в работе программы: Ошибка при отправке сообщения X"

/-- Counterexample to claim C7 as stated: in this cycle `send_message` is
invoked with the status text (the failed attempt), yet at the end of the
cycle `prev_message` is not that text — a failed send does not update
`prev_message`. -/
theorem prev_message_not_updated_on_failure :
    sentTexts (runCycle cfg0 transport1 oracle7 50
        ⟨some errMsg7, 50⟩).events = [statusMsg1] ∧
    (runCycle cfg0 transport1 oracle7 50
        ⟨some errMsg7, 50⟩).state.prev_message ≠ some statusMsg1 ∧
    (runCycle cfg0 transport1 oracle7 50 ⟨some errMsg7, 50⟩).crashed = false := by
  refine ⟨rfl, ?_, rfl⟩
  decide

/-- Claim C7 as amended: at the end of every cycle `prev_message` equals the
last text whose `send_message` call succeeded in that cycle, and keeps its
previous value when no send succeeded; a send attempt that fails never
updates it. -/
theorem prev_message_tracks_success (cfg : Config) (t : TransportResult)
    (oracle : String → Option String) (now : Int) (s : BotState) :
    (runCycle cfg t oracle now s).state.prev_message =
      ((successfulTexts oracle (runCycle cfg t oracle now s).events).getLast?).elim
        s.prev_message some := by
  rcases tryStage_cases cfg t oracle now s with h | ⟨a, h, hd, ho⟩ | ⟨e, h⟩ |
    ⟨a, er, h, hd, ho⟩
  · rw [runCycle_inl cfg t oracle now s _ _ h]
    simp [successfulTexts, sentTexts]
  · rw [runCycle_inl cfg t oracle now s _ _ h]
    simp [successfulTexts, sentTexts, ho]
  · have hrc := runCycle_inr cfg t oracle now s e [] h
    by_cases hd : some (errHeader ++ excMessage e) = s.prev_message
    · rw [hrc.1 hd]
      simp [successfulTexts, sentTexts]
    · cases ho : oracle (errHeader ++ excMessage e) with
      | none =>
          rw [hrc.2.1 hd ho]
          simp [successfulTexts, sentTexts, ho]
      | some er =>
          rw [hrc.2.2 hd er ho]
          simp [successfulTexts, sentTexts, ho]
  · have hrc := runCycle_inr cfg t oracle now s _ [.send a] h
    by_cases hd2 : some (errHeader ++ excMessage
        (.telegramSendMessageError ("Ошибка при отправке сообщения " ++ er))) =
        s.prev_message
    · rw [hrc.1 hd2]
      simp [successfulTexts, sentTexts, ho]
    · cases ho2 : oracle (errHeader ++ excMessage
          (.telegramSendMessageError ("Ошибка при отправке сообщения " ++ er))) with
      | none =>
          rw [hrc.2.1 hd2 ho2]
          simp [successfulTexts, sentTexts, ho, ho2]
      | some er2 =>
          rw [hrc.2.2 hd2 er2 ho2]
          simp [successfulTexts, sentTexts, ho, ho2]

/-- Claim C8: every cycle iteration, on success or on any failure, ends
with exactly one sleep of the fixed `RETRY_TIME = 600` interval as its last
event, and no other sleep occurs in the iteration. -/
theorem cycle_single_sleep (cfg : Config) (t : TransportResult)
    (oracle : String → Option String) (now : Int) (s : BotState) :
    RETRY_TIME = 600 ∧
    ∃ pre, (runCycle cfg t oracle now s).events = pre ++ [.sleep RETRY_TIME] ∧
      ∀ n, Event.sleep n ∉ pre := by
  refine ⟨rfl, ?_⟩
  rcases tryStage_cases cfg t oracle now s with h | ⟨a, h, hd, ho⟩ | ⟨e, h⟩ |
    ⟨a, er, h, hd, ho⟩
  · rw [runCycle_inl cfg t oracle now s _ _ h]
    exact ⟨[], rfl, by simp⟩
  · rw [runCycle_inl cfg t oracle now s _ _ h]
    exact ⟨[.send a], rfl, by simp⟩
  · have hrc := runCycle_inr cfg t oracle now s e [] h
    by_cases hd : some (errHeader ++ excMessage e) = s.prev_message
    · rw [hrc.1 hd]
      exact ⟨[], rfl, by simp⟩
    · cases ho : oracle (errHeader ++ excMessage e) with
      | none =>
          rw [hrc.2.1 hd ho]
          exact ⟨[.send (errHeader ++ excMessage e)], rfl, by simp⟩
      | some er =>
          rw [hrc.2.2 hd er ho]
          exact ⟨[.send (errHeader ++ excMessage e)], rfl, by simp⟩
  · have hrc := runCycle_inr cfg t oracle now s _ [.send a] h
    by_cases hd2 : some (errHeader ++ excMessage
        (.telegramSendMessageError ("Ошибка при отправке сообщения " ++ er))) =
        s.prev_message
    · rw [hrc.1 hd2]
      exact ⟨[.send a], rfl, by simp⟩
    · cases ho2 : oracle (errHeader ++ excMessage
          (.telegramSendMessageError ("Ошибка при отправке сообщения " ++ er))) with
      | none =>
          rw [hrc.2.1 hd2 ho2]
          exact ⟨[.send a, .send (errHeader ++ excMessage
            (.telegramSendMessageError ("Ошибка при отправке сообщения " ++ er)))],
            rfl, by simp⟩
      | some er2 =>
          rw [hrc.2.2 hd2 er2 ho2]
          exact ⟨[.send a, .send (errHeader ++ excMessage
            (.telegramSendMessageError ("Ошибка при отправке сообщения " ++ er)))],
            rfl, by simp⟩

end HomeworkBot
